import Mathlib

/-!
Shallow embedding of the twelve-step sizing pipeline of the Industrial
Water Softener Sizer (the `calculated` memo of the application component).
Numeric fields of the form arrive as strings and are parsed by
`parseInputNumber` into a finite number or `null`; the embedding takes the
input record after that parse, so each numeric field is an `Option ℚ`
(`none` for a blank or non-finite string).  Step 11 applies a real square
root and divides by π, so its diameter values live in `ℝ`; every other
step is rational.  Messages are the literal strings of the source.
-/

namespace SoftenerSizer

/-- Hardness unit selector, mirroring the `HardnessUnit` union of the source
("mg/L (ppm) as CaCO₃" or "grains per gallon (gpg)"). -/
inductive HardnessUnit
  | ppmAsCaCO3
  | gpg
deriving DecidableEq

/-- Salt dose selector, mirroring the `SaltDose` union `6 | 8 | 10 | 12 | 15`. -/
inductive SaltDose
  | d6
  | d8
  | d10
  | d12
  | d15
deriving DecidableEq

/-- Numeric value of a salt dose (pounds of NaCl per cubic foot of resin). -/
def SaltDose.toQ : SaltDose → ℚ
  | .d6 => 6
  | .d8 => 8
  | .d10 => 10
  | .d12 => 12
  | .d15 => 15

/-- The fixed capacity table `CAPACITY_BY_SALT_DOSE` of the source. -/
def CAPACITY_BY_SALT_DOSE : SaltDose → ℚ
  | .d6 => 20000
  | .d8 => 22500
  | .d10 => 25000
  | .d12 => 27500
  | .d15 => 30000

/-- The input record: the form values after `parseInputNumber`, so every
numeric text field is `Option ℚ` (`none` when blank or unparseable), and the
toggles and selects keep their source types. -/
structure Inputs where
  hardnessValue : Option ℚ
  hardnessUnits : HardnessUnit
  useCompensation : Bool
  ironPpm : Option ℚ
  manganesePpm : Option ℚ
  gallonsPerDay : Option ℚ
  daysBetweenRegen : Option ℚ
  reservePercent : Option ℚ
  saltDose : SaltDose
  overrideCapacity : Bool
  overrideCapacityValue : Option ℚ
  saltDissolutionFactor : Option ℚ
  peakFlowGpm : Option ℚ
  serviceLoadingRate : Option ℚ
  backwashRate : Option ℚ
deriving DecidableEq

/-- The source guard `isPositive(value)`: non-null and strictly positive. -/
def isPositive : Option ℚ → Bool
  | none => false
  | some x => decide (0 < x)

/-- Effective iron load: `useCompensation ? Math.max(0, parse(ironPpm) ?? 0) : 0`. -/
def ironPpmEff (f : Inputs) : ℚ :=
  if f.useCompensation then max 0 (f.ironPpm.getD 0) else 0

/-- Effective manganese load, symmetric to `ironPpmEff`. -/
def manganesePpmEff (f : Inputs) : ℚ :=
  if f.useCompensation then max 0 (f.manganesePpm.getD 0) else 0

/-- The global flag `requiredInputMissing` of the source. -/
def requiredInputMissing (f : Inputs) : Bool :=
  !isPositive f.hardnessValue ||
  !isPositive f.gallonsPerDay ||
  !isPositive f.daysBetweenRegen ||
  !isPositive (some f.saltDose.toQ) ||
  !isPositive f.peakFlowGpm ||
  !isPositive f.serviceLoadingRate

/-- The global gate `reserveTooHigh`: reserve parsed and at least 100. -/
def reserveTooHigh (f : Inputs) : Bool :=
  match f.reservePercent with
  | some r => decide (100 ≤ r)
  | none => false

/-- The `reserveBlockMessage` of the source: set exactly when `reserveTooHigh`. -/
def reserveBlockMessage (f : Inputs) : Option String :=
  if reserveTooHigh f then
    some "Reserve Capacity must be below 100%. Step 5 and all later steps are blocked."
  else none

/-- The `serviceLoadingError` string of the source. -/
def serviceLoadingError (f : Inputs) : Option String :=
  match f.serviceLoadingRate with
  | some s =>
      if s ≤ 0 then
        some "Service Loading Rate must be greater than 0. Steps 10 through 12 are blocked."
      else none
  | none => none

/-- Step 1: hardness in grains per gallon (`/ 17.1` when entered as ppm). -/
def step1HardnessGpg (f : Inputs) : Option ℚ :=
  match f.hardnessValue with
  | some h =>
      if 0 < h then
        some (if f.hardnessUnits = HardnessUnit.ppmAsCaCO3 then h / (171 / 10) else h)
      else none
  | none => none

/-- Step 2: design hardness, compensated by `4 * (iron + manganese)` when on. -/
def step2DesignHardnessGpg (f : Inputs) : Option ℚ :=
  (step1HardnessGpg f).map fun s1 =>
    if f.useCompensation then s1 + 4 * (ironPpmEff f + manganesePpmEff f) else s1

/-- Step 3: daily hardness load in grains per day. -/
def step3GrainsPerDay (f : Inputs) : Option ℚ :=
  match step2DesignHardnessGpg f, f.gallonsPerDay with
  | some s2, some g => if 0 < g then some (s2 * g) else none
  | _, _ => none

/-- Step 4: required grains per run before reserve. -/
def step4RequiredGrainsPerRun (f : Inputs) : Option ℚ :=
  match step3GrainsPerDay f, f.daysBetweenRegen with
  | some s3, some d => if 0 < d then some (s3 * d) else none
  | _, _ => none

/-- Step 5 value: reserve-adjusted design grains per run. -/
def step5DesignGrainsPerRun (f : Inputs) : Option ℚ :=
  if reserveTooHigh f then none
  else
    match step4RequiredGrainsPerRun f, f.reservePercent with
    | some s4, some r => if r < 0 then none else some (s4 / (1 - r / 100))
    | _, _ => none

/-- Step 5 message, following the branch order of the source. -/
def step5Message (f : Inputs) : Option String :=
  if reserveTooHigh f then reserveBlockMessage f
  else
    match step4RequiredGrainsPerRun f, f.reservePercent with
    | some _, none => some "Enter Reserve Capacity to calculate Step 5."
    | some _, some r => if r < 0 then some "Reserve Capacity cannot be negative." else none
    | none, _ => none

/-- Step 6 value: working capacity per cubic foot (override or table). -/
def step6CapacityPerFt3 (f : Inputs) : Option ℚ :=
  if reserveTooHigh f then none
  else if f.overrideCapacity then
    match f.overrideCapacityValue with
    | some v => if 0 < v then some v else none
    | none => none
  else some (CAPACITY_BY_SALT_DOSE f.saltDose)

/-- Step 6 message. -/
def step6Message (f : Inputs) : Option String :=
  if reserveTooHigh f then reserveBlockMessage f
  else if f.overrideCapacity then
    if isPositive f.overrideCapacityValue then none
    else some "Override capacity per cubic foot must be greater than 0."
  else none

/-- Step 7 value: required resin volume in cubic feet. -/
def step7ResinFt3 (f : Inputs) : Option ℚ :=
  if reserveTooHigh f then none
  else
    match step5DesignGrainsPerRun f, step6CapacityPerFt3 f with
    | some s5, some s6 => some (s5 / s6)
    | _, _ => none

/-- Step 7 message. -/
def step7Message (f : Inputs) : Option String :=
  if reserveTooHigh f then reserveBlockMessage f
  else
    match step5DesignGrainsPerRun f, step6CapacityPerFt3 f with
    | some _, some _ => none
    | _, _ => some "Complete Steps 5 and 6 to calculate resin volume."

/-- Step 8 value: salt per regeneration in pounds. -/
def step8SaltLbsPerRegen (f : Inputs) : Option ℚ :=
  if reserveTooHigh f then none
  else (step7ResinFt3 f).map fun s7 => s7 * f.saltDose.toQ

/-- Step 8 message. -/
def step8Message (f : Inputs) : Option String :=
  if reserveTooHigh f then reserveBlockMessage f
  else
    match step7ResinFt3 f with
    | some _ => none
    | none => some "Complete Step 7 to calculate salt per regeneration."

/-- Step 9 value: estimated brine refill water in gallons. -/
def step9BrineWaterGallons (f : Inputs) : Option ℚ :=
  if reserveTooHigh f then none
  else
    match step8SaltLbsPerRegen f, f.saltDissolutionFactor with
    | some s8, some d => if 0 < d then some (s8 / d) else none
    | _, _ => none

/-- Step 9 message. -/
def step9Message (f : Inputs) : Option String :=
  if reserveTooHigh f then reserveBlockMessage f
  else
    match step8SaltLbsPerRegen f with
    | some _ =>
        if isPositive f.saltDissolutionFactor then none
        else some "Salt Dissolution Factor must be greater than 0."
    | none => some "Complete Step 8 to calculate brine refill water."

/-- Step 10 value: required bed area in square feet. -/
def step10BedAreaFt2 (f : Inputs) : Option ℚ :=
  if reserveTooHigh f then none
  else
    match f.peakFlowGpm, f.serviceLoadingRate with
    | some p, some s => if 0 < p ∧ 0 < s then some (p / s) else none
    | _, _ => none

/-- Step 10 message, following the branch order of the source. -/
def step10Message (f : Inputs) : Option String :=
  if reserveTooHigh f then reserveBlockMessage f
  else if !isPositive f.peakFlowGpm then some "Peak Flow Rate must be greater than 0."
  else if !isPositive f.serviceLoadingRate then
    some "Service Loading Rate must be greater than 0. Steps 10 through 12 are blocked."
  else none

/-- Step 11 diameter in feet: `2 * sqrt(bedArea / π)`. -/
noncomputable def step11DiameterFt (f : Inputs) : Option ℝ :=
  if reserveTooHigh f then none
  else (step10BedAreaFt2 f).map fun a => 2 * Real.sqrt ((a : ℝ) / Real.pi)

/-- Step 11 diameter in inches. -/
noncomputable def step11DiameterIn (f : Inputs) : Option ℝ :=
  if reserveTooHigh f then none
  else (step11DiameterFt f).map fun d => d * 12

/-- Step 11 message: inherits step 10's message when step 10 is null. -/
def step11Message (f : Inputs) : Option String :=
  if reserveTooHigh f then reserveBlockMessage f
  else
    match step10BedAreaFt2 f with
    | some _ => none
    | none => step10Message f

/-- Step 12 value: backwash flow requirement in gallons per minute. -/
def step12BackwashFlowGpm (f : Inputs) : Option ℚ :=
  if reserveTooHigh f then none
  else
    match step10BedAreaFt2 f, f.backwashRate with
    | some a, some b => if 0 < b then some (a * b) else none
    | _, _ => none

/-- Step 12 message. -/
def step12Message (f : Inputs) : Option String :=
  if reserveTooHigh f then reserveBlockMessage f
  else
    match step10BedAreaFt2 f with
    | some _ =>
        if isPositive f.backwashRate then none
        else some "Backwash Rate must be greater than 0."
    | none => step10Message f

/-- Scenario 1 of the spec: hardness 300 ppm, compensation off, 10000 gal/day,
2 days between regenerations, 15% reserve, salt dose 8, dissolution factor 3,
peak flow 50 gpm, service loading 7, backwash 7. -/
def scenario1 : Inputs :=
  { hardnessValue := some 300
    hardnessUnits := HardnessUnit.ppmAsCaCO3
    useCompensation := false
    ironPpm := some 0
    manganesePpm := some 0
    gallonsPerDay := some 10000
    daysBetweenRegen := some 2
    reservePercent := some 15
    saltDose := SaltDose.d8
    overrideCapacity := false
    overrideCapacityValue := none
    saltDissolutionFactor := some 3
    peakFlowGpm := some 50
    serviceLoadingRate := some 7
    backwashRate := some 7 }

/-- Scenario 1 with the reserve raised to 100% (the reserve-too-high gate). -/
def scenarioReserve100 : Inputs :=
  { scenario1 with reservePercent := some 100 }

/-- Scenario 1 with a zero service loading rate. -/
def scenarioSlrZero : Inputs :=
  { scenario1 with serviceLoadingRate := some 0 }

/-- Scenario 1 with the reserve at 100% and a zero service loading rate. -/
def scenarioReserve100SlrZero : Inputs :=
  { scenario1 with reservePercent := some 100, serviceLoadingRate := some 0 }

/-- An input record with every text field blank: every parsed field is `none`. -/
def allMissing : Inputs :=
  { hardnessValue := none
    hardnessUnits := HardnessUnit.ppmAsCaCO3
    useCompensation := false
    ironPpm := none
    manganesePpm := none
    gallonsPerDay := none
    daysBetweenRegen := none
    reservePercent := none
    saltDose := SaltDose.d8
    overrideCapacity := false
    overrideCapacityValue := none
    saltDissolutionFactor := none
    peakFlowGpm := none
    serviceLoadingRate := none
    backwashRate := none }

/-- Every value that step 1 produces is strictly positive. -/
theorem step1_pos {f : Inputs} {v : ℚ} (h : step1HardnessGpg f = some v) : 0 < v := by
  rcases hx : f.hardnessValue with _ | x <;> simp [step1HardnessGpg, hx] at h
  rcases h with ⟨hpos, hv⟩
  subst hv
  split
  · exact div_pos hpos (by norm_num)
  · exact hpos

/-- Every value that step 2 produces is strictly positive. -/
theorem step2_pos {f : Inputs} {v : ℚ} (h : step2DesignHardnessGpg f = some v) : 0 < v := by
  rcases h1 : step1HardnessGpg f with _ | s1 <;> simp [step2DesignHardnessGpg, h1] at h
  subst h
  have hs1 : 0 < s1 := step1_pos h1
  have hi : 0 ≤ ironPpmEff f := by unfold ironPpmEff; split <;> simp
  have hm : 0 ≤ manganesePpmEff f := by unfold manganesePpmEff; split <;> simp
  split
  · linarith
  · exact hs1

/-- Every value that step 3 produces is strictly positive. -/
theorem step3_pos {f : Inputs} {v : ℚ} (h : step3GrainsPerDay f = some v) : 0 < v := by
  rcases h2 : step2DesignHardnessGpg f with _ | s2 <;>
    rcases hg : f.gallonsPerDay with _ | g <;>
      simp [step3GrainsPerDay, h2, hg] at h
  rcases h with ⟨hgpos, hv⟩
  subst hv
  exact mul_pos (step2_pos h2) hgpos

/-- Every value that step 4 produces is strictly positive. -/
theorem step4_pos {f : Inputs} {v : ℚ} (h : step4RequiredGrainsPerRun f = some v) : 0 < v := by
  rcases h3 : step3GrainsPerDay f with _ | s3 <;>
    rcases hd : f.daysBetweenRegen with _ | d <;>
      simp [step4RequiredGrainsPerRun, h3, hd] at h
  rcases h with ⟨hdpos, hv⟩
  subst hv
  exact mul_pos (step3_pos h3) hdpos

/-- A reserve percent below 100 leaves the step 5 divisor `1 - r / 100`
strictly positive. -/
theorem reserve_divisor_pos {r : ℚ} (h100 : r < 100) : 0 < 1 - r / 100 := by
  have : r / 100 < 1 := by
    rw [div_lt_one (by norm_num : (0:ℚ) < 100)]
    linarith
  linarith

/-- Every value that step 5 produces is strictly positive. -/
theorem step5_pos {f : Inputs} {v : ℚ} (h : step5DesignGrainsPerRun f = some v) : 0 < v := by
  unfold step5DesignGrainsPerRun at h
  rcases hrb : reserveTooHigh f with _ | _ <;> rw [hrb] at h
  · rcases h4 : step4RequiredGrainsPerRun f with _ | s4 <;>
      rcases hr : f.reservePercent with _ | r <;>
        simp [h4, hr] at h
    rcases h with ⟨hrneg, hv⟩
    subst hv
    have hr100 : ¬ 100 ≤ r := by
      have := hrb
      unfold reserveTooHigh at this
      rw [hr] at this
      simpa using this
    exact div_pos (step4_pos h4) (reserve_divisor_pos (lt_of_not_le hr100))
  · simp at h

/-- The capacity table only holds strictly positive capacities. -/
theorem capacity_table_pos (d : SaltDose) : 0 < CAPACITY_BY_SALT_DOSE d := by
  cases d <;> norm_num [CAPACITY_BY_SALT_DOSE]

/-- Every value that step 6 produces is strictly positive. -/
theorem step6_pos {f : Inputs} {v : ℚ} (h : step6CapacityPerFt3 f = some v) : 0 < v := by
  unfold step6CapacityPerFt3 at h
  rcases hrb : reserveTooHigh f with _ | _ <;> rw [hrb] at h
  · rcases ho : f.overrideCapacity with _ | _ <;> rw [ho] at h
    · simp at h
      rw [← h]
      exact capacity_table_pos f.saltDose
    · rcases hov : f.overrideCapacityValue with _ | w <;> simp [hov] at h
      rcases h with ⟨hw, hv⟩
      subst hv
      exact hw
  · simp at h

/-- Every salt dose is strictly positive. -/
theorem saltDose_pos (d : SaltDose) : 0 < d.toQ := by
  cases d <;> norm_num [SaltDose.toQ]

/-- Every value that step 7 produces is strictly positive. -/
theorem step7_pos {f : Inputs} {v : ℚ} (h : step7ResinFt3 f = some v) : 0 < v := by
  unfold step7ResinFt3 at h
  rcases hrb : reserveTooHigh f with _ | _ <;> rw [hrb] at h
  · rcases h5 : step5DesignGrainsPerRun f with _ | s5 <;>
      rcases h6 : step6CapacityPerFt3 f with _ | s6 <;>
        simp [h5, h6] at h
    subst h
    exact div_pos (step5_pos h5) (step6_pos h6)
  · simp at h

/-- Every value that step 8 produces is strictly positive. -/
theorem step8_pos {f : Inputs} {v : ℚ} (h : step8SaltLbsPerRegen f = some v) : 0 < v := by
  unfold step8SaltLbsPerRegen at h
  rcases hrb : reserveTooHigh f with _ | _ <;> rw [hrb] at h
  · rcases h7 : step7ResinFt3 f with _ | s7 <;> simp [h7] at h
    subst h
    exact mul_pos (step7_pos h7) (saltDose_pos f.saltDose)
  · simp at h

/-- Every value that step 9 produces is strictly positive. -/
theorem step9_pos {f : Inputs} {v : ℚ} (h : step9BrineWaterGallons f = some v) : 0 < v := by
  unfold step9BrineWaterGallons at h
  rcases hrb : reserveTooHigh f with _ | _ <;> rw [hrb] at h
  · rcases h8 : step8SaltLbsPerRegen f with _ | s8 <;>
      rcases hd : f.saltDissolutionFactor with _ | d <;>
        simp [h8, hd] at h
    rcases h with ⟨hdpos, hv⟩
    subst hv
    exact div_pos (step8_pos h8) hdpos
  · simp at h

/-- Every value that step 10 produces is strictly positive. -/
theorem step10_pos {f : Inputs} {v : ℚ} (h : step10BedAreaFt2 f = some v) : 0 < v := by
  unfold step10BedAreaFt2 at h
  rcases hrb : reserveTooHigh f with _ | _ <;> rw [hrb] at h
  · rcases hp : f.peakFlowGpm with _ | p <;>
      rcases hs : f.serviceLoadingRate with _ | s <;>
        simp [hp, hs] at h
    rcases h with ⟨⟨hppos, hspos⟩, hv⟩
    subst hv
    exact div_pos hppos hspos
  · simp at h

/-- Every value that step 12 produces is strictly positive. -/
theorem step12_pos {f : Inputs} {v : ℚ} (h : step12BackwashFlowGpm f = some v) : 0 < v := by
  unfold step12BackwashFlowGpm at h
  rcases hrb : reserveTooHigh f with _ | _ <;> rw [hrb] at h
  · rcases h10 : step10BedAreaFt2 f with _ | a <;>
      rcases hb : f.backwashRate with _ | b <;>
        simp [h10, hb] at h
    rcases h with ⟨hbpos, hv⟩
    subst hv
    exact mul_pos (step10_pos h10) hbpos
  · simp at h

/-- Every diameter in feet that step 11 produces is strictly positive. -/
theorem step11Ft_pos {f : Inputs} {v : ℝ} (h : step11DiameterFt f = some v) : 0 < v := by
  unfold step11DiameterFt at h
  rcases hrb : reserveTooHigh f with _ | _ <;> rw [hrb] at h
  · rcases h10 : step10BedAreaFt2 f with _ | a <;> simp [h10] at h
    subst h
    have ha : (0:ℝ) < (a : ℝ) := by exact_mod_cast step10_pos h10
    have : 0 < Real.sqrt ((a : ℝ) / Real.pi) :=
      Real.sqrt_pos.mpr (div_pos ha Real.pi_pos)
    linarith
  · simp at h

/-- Every diameter in inches that step 11 produces is strictly positive. -/
theorem step11In_pos {f : Inputs} {v : ℝ} (h : step11DiameterIn f = some v) : 0 < v := by
  unfold step11DiameterIn at h
  rcases hrb : reserveTooHigh f with _ | _ <;> rw [hrb] at h
  · rcases hft : step11DiameterFt f with _ | d <;> simp [hft] at h
    subst h
    have := step11Ft_pos hft
    linarith
  · simp at h

/-- Claim C1, counterexample: the claim says steps 10 through 12 are unaffected
by the reserve-too-high condition alone, but with the same flow inputs
(peak flow 50, service loading 7) step 10 is `50 / 7` with no message at
reserve 15 while at reserve 100 it is null and carries the reserve-block
message. -/
theorem c1_counterexample :
    step10BedAreaFt2 scenarioReserve100 = none ∧
    step10Message scenarioReserve100 =
      some "Reserve Capacity must be below 100%. Step 5 and all later steps are blocked." ∧
    step10BedAreaFt2 scenario1 = some (50 / 7) ∧
    step10Message scenario1 = none := by
  refine ⟨?_, ?_, ?_, ?_⟩
  · norm_num [step10BedAreaFt2, reserveTooHigh, scenarioReserve100, scenario1]
  · norm_num [step10Message, reserveBlockMessage, reserveTooHigh, scenarioReserve100, scenario1]
  · norm_num [step10BedAreaFt2, reserveTooHigh, scenario1]
  · norm_num [step10Message, reserveBlockMessage, reserveTooHigh, isPositive, scenario1]

/-- Claim C1, amended: whenever `reservePercent` parses to a number at least
100, steps 5 through 12 all have a null value and all carry the reserve-block
message — the block reaches steps 10 through 12 as well. -/
theorem c1_reserve_blocks_steps_5_through_12 (f : Inputs)
    (h : reserveTooHigh f = true) :
    step5DesignGrainsPerRun f = none ∧ step6CapacityPerFt3 f = none ∧
    step7ResinFt3 f = none ∧ step8SaltLbsPerRegen f = none ∧
    step9BrineWaterGallons f = none ∧ step10BedAreaFt2 f = none ∧
    step11DiameterFt f = none ∧ step11DiameterIn f = none ∧
    step12BackwashFlowGpm f = none ∧
    step5Message f =
      some "Reserve Capacity must be below 100%. Step 5 and all later steps are blocked." ∧
    step6Message f =
      some "Reserve Capacity must be below 100%. Step 5 and all later steps are blocked." ∧
    step7Message f =
      some "Reserve Capacity must be below 100%. Step 5 and all later steps are blocked." ∧
    step8Message f =
      some "Reserve Capacity must be below 100%. Step 5 and all later steps are blocked." ∧
    step9Message f =
      some "Reserve Capacity must be below 100%. Step 5 and all later steps are blocked." ∧
    step10Message f =
      some "Reserve Capacity must be below 100%. Step 5 and all later steps are blocked." ∧
    step11Message f =
      some "Reserve Capacity must be below 100%. Step 5 and all later steps are blocked." ∧
    step12Message f =
      some "Reserve Capacity must be below 100%. Step 5 and all later steps are blocked." := by
  refine ⟨?_, ?_, ?_, ?_, ?_, ?_, ?_, ?_, ?_, ?_, ?_, ?_, ?_, ?_, ?_, ?_, ?_⟩ <;>
    simp [step5DesignGrainsPerRun, step6CapacityPerFt3, step7ResinFt3,
      step8SaltLbsPerRegen, step9BrineWaterGallons, step10BedAreaFt2,
      step11DiameterFt, step11DiameterIn, step12BackwashFlowGpm,
      step5Message, step6Message, step7Message, step8Message, step9Message,
      step10Message, step11Message, step12Message, reserveBlockMessage, h]

/-- Claim C1, witness: the amended theorem applied at reserve 100. -/
theorem c1_witness :
    reserveTooHigh scenarioReserve100 = true ∧
    step5DesignGrainsPerRun scenarioReserve100 = none := by
  have h : reserveTooHigh scenarioReserve100 = true := by
    norm_num [reserveTooHigh, scenarioReserve100, scenario1]
  exact ⟨h, (c1_reserve_blocks_steps_5_through_12 scenarioReserve100 h).1⟩

/-- Claim C2, counterexample: with every text field blank (nothing entered,
so no domain constraint is violated), step 7 has a null value but its message
is not null — it carries the guidance message rather than staying silent. -/
theorem c2_counterexample :
    step7ResinFt3 allMissing = none ∧
    step7Message allMissing = some "Complete Steps 5 and 6 to calculate resin volume." := by
  constructor
  · norm_num [step7ResinFt3, step5DesignGrainsPerRun, step4RequiredGrainsPerRun,
      step3GrainsPerDay, step2DesignHardnessGpg, step1HardnessGpg,
      step6CapacityPerFt3, reserveTooHigh, allMissing]
  · norm_num [step7Message, step5DesignGrainsPerRun, step4RequiredGrainsPerRun,
      step3GrainsPerDay, step2DesignHardnessGpg, step1HardnessGpg,
      reserveTooHigh, allMissing]

/-- Claim C2, amended: a missing hardness value (with the reserve gate off)
leaves steps 1 through 5 null and silent (step 5's message is null), but the
downstream steps 7 through 9 carry explicit guidance messages naming the step
to complete, not null messages. -/
theorem c2_missing_hardness_silent_then_guidance (f : Inputs)
    (h1 : f.hardnessValue = none) (h2 : reserveTooHigh f = false) :
    step1HardnessGpg f = none ∧ step2DesignHardnessGpg f = none ∧
    step3GrainsPerDay f = none ∧ step4RequiredGrainsPerRun f = none ∧
    step5DesignGrainsPerRun f = none ∧ step5Message f = none ∧
    step7ResinFt3 f = none ∧
    step7Message f = some "Complete Steps 5 and 6 to calculate resin volume." ∧
    step8SaltLbsPerRegen f = none ∧
    step8Message f = some "Complete Step 7 to calculate salt per regeneration." ∧
    step9BrineWaterGallons f = none ∧
    step9Message f = some "Complete Step 8 to calculate brine refill water." := by
  have e1 : step1HardnessGpg f = none := by simp [step1HardnessGpg, h1]
  have e2 : step2DesignHardnessGpg f = none := by simp [step2DesignHardnessGpg, e1]
  have e3 : step3GrainsPerDay f = none := by
    cases hg : f.gallonsPerDay <;> simp [step3GrainsPerDay, e2, hg]
  have e4 : step4RequiredGrainsPerRun f = none := by
    cases hd : f.daysBetweenRegen <;> simp [step4RequiredGrainsPerRun, e3, hd]
  have e5 : step5DesignGrainsPerRun f = none := by
    cases hr : f.reservePercent <;> simp [step5DesignGrainsPerRun, e4, hr, h2]
  have e5m : step5Message f = none := by
    cases hr : f.reservePercent <;> simp [step5Message, e4, hr, h2]
  have e7 : step7ResinFt3 f = none := by
    cases h6 : step6CapacityPerFt3 f <;> simp [step7ResinFt3, e5, h6, h2]
  have e7m : step7Message f = some "Complete Steps 5 and 6 to calculate resin volume." := by
    cases h6 : step6CapacityPerFt3 f <;> simp [step7Message, e5, h6, h2]
  have e8 : step8SaltLbsPerRegen f = none := by simp [step8SaltLbsPerRegen, e7, h2]
  have e8m : step8Message f = some "Complete Step 7 to calculate salt per regeneration." := by
    simp [step8Message, e7, h2]
  have e9 : step9BrineWaterGallons f = none := by
    cases hd : f.saltDissolutionFactor <;> simp [step9BrineWaterGallons, e8, hd, h2]
  have e9m : step9Message f = some "Complete Step 8 to calculate brine refill water." := by
    simp [step9Message, e8, h2]
  exact ⟨e1, e2, e3, e4, e5, e5m, e7, e7m, e8, e8m, e9, e9m⟩

/-- Claim C2, witness: the amended theorem applied at the all-blank record. -/
theorem c2_witness :
    allMissing.hardnessValue = none ∧ reserveTooHigh allMissing = false ∧
    step5Message allMissing = none := by
  have h1 : allMissing.hardnessValue = none := rfl
  have h2 : reserveTooHigh allMissing = false := by
    norm_num [reserveTooHigh, allMissing]
  exact ⟨h1, h2, (c2_missing_hardness_silent_then_guidance allMissing h1 h2).2.2.2.2.2.1⟩

/-- Claim C3, counterexample: at the Scenario 1 inputs, step 5 is exactly
`400000000 / 969 ≈ 412796.7`, which is below 412800, so the claimed value of
approximately 412,808 (stated to whole-grain precision) is wrong. -/
theorem c3_counterexample :
    step5DesignGrainsPerRun scenario1 = some (400000000 / 969) ∧
    (400000000 / 969 : ℚ) < 412800 := by
  constructor
  · norm_num [step5DesignGrainsPerRun, reserveTooHigh, step4RequiredGrainsPerRun,
      step3GrainsPerDay, step2DesignHardnessGpg, step1HardnessGpg, scenario1]
  · norm_num

/-- Claim C3, amended: at the Scenario 1 inputs the pipeline produces
step1 = step2 ≈ 17.54 gpg, step3 ≈ 175,439, step4 ≈ 350,877,
step5 ≈ 412,797 (not 412,808), step6 = 22,500, step7 ≈ 18.35,
step8 ≈ 146.77 (not 146.78), step9 ≈ 48.92 (not 48.93), step10 ≈ 7.14,
step11 ≈ 3.02 ft which is ≈ 36.19 in (not 36.21), and step12 = 50 exactly;
each equality is exact and each approximation is boxed to its stated
precision. -/
theorem c3_scenario1_values :
    step1HardnessGpg scenario1 = some (1000 / 57) ∧
    (17.535 : ℚ) < 1000 / 57 ∧ (1000 / 57 : ℚ) < 17.545 ∧
    step2DesignHardnessGpg scenario1 = some (1000 / 57) ∧
    step3GrainsPerDay scenario1 = some (10000000 / 57) ∧
    (175438.5 : ℚ) < 10000000 / 57 ∧ (10000000 / 57 : ℚ) < 175439.5 ∧
    step4RequiredGrainsPerRun scenario1 = some (20000000 / 57) ∧
    (350876.5 : ℚ) < 20000000 / 57 ∧ (20000000 / 57 : ℚ) < 350877.5 ∧
    step5DesignGrainsPerRun scenario1 = some (400000000 / 969) ∧
    (412796.5 : ℚ) < 400000000 / 969 ∧ (400000000 / 969 : ℚ) < 412797.5 ∧
    step6CapacityPerFt3 scenario1 = some 22500 ∧
    step7ResinFt3 scenario1 = some (400000000 / 21802500) ∧
    (18.345 : ℚ) < 400000000 / 21802500 ∧ (400000000 / 21802500 : ℚ) < 18.355 ∧
    step8SaltLbsPerRegen scenario1 = some (3200000000 / 21802500) ∧
    (146.765 : ℚ) < 3200000000 / 21802500 ∧ (3200000000 / 21802500 : ℚ) < 146.775 ∧
    step9BrineWaterGallons scenario1 = some (3200000000 / 65407500) ∧
    (48.915 : ℚ) < 3200000000 / 65407500 ∧ (3200000000 / 65407500 : ℚ) < 48.925 ∧
    step10BedAreaFt2 scenario1 = some (50 / 7) ∧
    (7.135 : ℚ) < 50 / 7 ∧ (50 / 7 : ℚ) < 7.145 ∧
    (∃ d : ℝ, step11DiameterFt scenario1 = some d ∧
      step11DiameterIn scenario1 = some (d * 12) ∧
      3.015 < d ∧ d < 3.025 ∧ 36.185 < d * 12 ∧ d * 12 < 36.195) ∧
    step12BackwashFlowGpm scenario1 = some 50 := by
  have hrb : reserveTooHigh scenario1 = false := by
    norm_num [reserveTooHigh, scenario1]
  have h10 : step10BedAreaFt2 scenario1 = some (50 / 7) := by
    norm_num [step10BedAreaFt2, reserveTooHigh, scenario1]
  have hstep11 : ∃ d : ℝ, step11DiameterFt scenario1 = some d ∧
      step11DiameterIn scenario1 = some (d * 12) ∧
      3.015 < d ∧ d < 3.025 ∧ 36.185 < d * 12 ∧ d * 12 < 36.195 := by
    have hc : (((50 : ℚ) / 7 : ℚ) : ℝ) = (50 : ℝ) / 7 := by push_cast; ring
    have hπu : Real.pi < 3.141593 := Real.pi_lt_d6
    have hπl : (3.141592 : ℝ) < Real.pi := Real.pi_gt_d6
    have hπ0 : (0 : ℝ) < Real.pi := Real.pi_pos
    have hzl : (2.2733100625 : ℝ) < (50 / 7) / Real.pi := by
      have ha : (50 / 7 : ℝ) / 3.141593 < (50 / 7) / Real.pi :=
        div_lt_div_of_pos_left (by norm_num) hπ0 hπu
      have hb : (2.2733100625 : ℝ) < (50 / 7) / 3.141593 := by norm_num
      linarith
    have hzu : (50 / 7 : ℝ) / Real.pi < 2.2744410 := by
      have ha : (50 / 7 : ℝ) / Real.pi < (50 / 7) / 3.141592 :=
        div_lt_div_of_pos_left (by norm_num) (by norm_num) hπl
      have hb : (50 / 7 : ℝ) / 3.141592 < 2.2744410 := by norm_num
      linarith
    have hsl : (1.50775 : ℝ) < Real.sqrt ((50 / 7) / Real.pi) := by
      rw [Real.lt_sqrt (by norm_num)]
      have : (1.50775 : ℝ) ^ 2 = 2.2733100625 := by norm_num
      linarith
    have hsu : Real.sqrt ((50 / 7) / Real.pi) < 1.508125 := by
      rw [Real.sqrt_lt' (by norm_num)]
      have : (1.508125 : ℝ) ^ 2 = 2.274441015625 := by norm_num
      linarith
    refine ⟨2 * Real.sqrt ((50 : ℝ) / 7 / Real.pi), ?_, ?_, ?_, ?_, ?_, ?_⟩
    · simp [step11DiameterFt, hrb, h10, hc]
    · simp [step11DiameterIn, step11DiameterFt, hrb, h10, hc]
    · linarith
    · linarith
    · linarith
    · linarith
  refine ⟨?_, by norm_num, by norm_num, ?_, ?_, by norm_num, by norm_num, ?_,
    by norm_num, by norm_num, ?_, by norm_num, by norm_num, ?_, ?_,
    by norm_num, by norm_num, ?_, by norm_num, by norm_num, ?_,
    by norm_num, by norm_num, h10, by norm_num, by norm_num, hstep11, ?_⟩
  · norm_num [step1HardnessGpg, scenario1]
  · norm_num [step2DesignHardnessGpg, step1HardnessGpg, scenario1]
  · norm_num [step3GrainsPerDay, step2DesignHardnessGpg, step1HardnessGpg, scenario1]
  · norm_num [step4RequiredGrainsPerRun, step3GrainsPerDay, step2DesignHardnessGpg,
      step1HardnessGpg, scenario1]
  · norm_num [step5DesignGrainsPerRun, reserveTooHigh, step4RequiredGrainsPerRun,
      step3GrainsPerDay, step2DesignHardnessGpg, step1HardnessGpg, scenario1]
  · norm_num [step6CapacityPerFt3, reserveTooHigh, scenario1, CAPACITY_BY_SALT_DOSE]
  · norm_num [step7ResinFt3, step5DesignGrainsPerRun, step6CapacityPerFt3,
      reserveTooHigh, step4RequiredGrainsPerRun, step3GrainsPerDay,
      step2DesignHardnessGpg, step1HardnessGpg, scenario1, CAPACITY_BY_SALT_DOSE]
  · norm_num [step8SaltLbsPerRegen, step7ResinFt3, step5DesignGrainsPerRun,
      step6CapacityPerFt3, reserveTooHigh, step4RequiredGrainsPerRun,
      step3GrainsPerDay, step2DesignHardnessGpg, step1HardnessGpg, scenario1,
      CAPACITY_BY_SALT_DOSE, SaltDose.toQ]
  · norm_num [step9BrineWaterGallons, step8SaltLbsPerRegen, step7ResinFt3,
      step5DesignGrainsPerRun, step6CapacityPerFt3, reserveTooHigh,
      step4RequiredGrainsPerRun, step3GrainsPerDay, step2DesignHardnessGpg,
      step1HardnessGpg, scenario1, CAPACITY_BY_SALT_DOSE, SaltDose.toQ]
  · norm_num [step12BackwashFlowGpm, step10BedAreaFt2, reserveTooHigh, scenario1]

/-- Claim C4: null propagates forward through the dependency chain — a later
step's value is null whenever a required upstream step's value is null
(step 2 from 1, 3 from 2, 4 from 3, 5 from 4, 7 from 5 and 6, 8 from 7,
9 from 8, 11 and 12 from 10). -/
theorem c4_null_propagation (f : Inputs) :
    (step1HardnessGpg f = none → step2DesignHardnessGpg f = none) ∧
    (step2DesignHardnessGpg f = none → step3GrainsPerDay f = none) ∧
    (step3GrainsPerDay f = none → step4RequiredGrainsPerRun f = none) ∧
    (step4RequiredGrainsPerRun f = none → step5DesignGrainsPerRun f = none) ∧
    (step5DesignGrainsPerRun f = none ∨ step6CapacityPerFt3 f = none →
      step7ResinFt3 f = none) ∧
    (step7ResinFt3 f = none → step8SaltLbsPerRegen f = none) ∧
    (step8SaltLbsPerRegen f = none → step9BrineWaterGallons f = none) ∧
    (step10BedAreaFt2 f = none →
      step11DiameterFt f = none ∧ step11DiameterIn f = none ∧
      step12BackwashFlowGpm f = none) := by
  refine ⟨?_, ?_, ?_, ?_, ?_, ?_, ?_, ?_⟩
  · intro h
    simp [step2DesignHardnessGpg, h]
  · intro h
    cases hg : f.gallonsPerDay <;> simp [step3GrainsPerDay, h, hg]
  · intro h
    cases hd : f.daysBetweenRegen <;> simp [step4RequiredGrainsPerRun, h, hd]
  · intro h
    cases hr : f.reservePercent <;> simp [step5DesignGrainsPerRun, h, hr]
  · rintro (h | h)
    · cases h6 : step6CapacityPerFt3 f <;> simp [step7ResinFt3, h, h6]
    · cases h5 : step5DesignGrainsPerRun f <;> simp [step7ResinFt3, h, h5]
  · intro h
    simp [step8SaltLbsPerRegen, h]
  · intro h
    cases hd : f.saltDissolutionFactor <;> simp [step9BrineWaterGallons, h, hd]
  · intro h
    refine ⟨?_, ?_, ?_⟩
    · simp [step11DiameterFt, h]
    · simp [step11DiameterIn, step11DiameterFt, h]
    · cases hb : f.backwashRate <;> simp [step12BackwashFlowGpm, h, hb]

/-- Claim C4, witness: applied at the all-blank record, where step 1 is null
and the propagation gives that step 2 is null. -/
theorem c4_witness :
    step1HardnessGpg allMissing = none ∧ step2DesignHardnessGpg allMissing = none := by
  have h1 : step1HardnessGpg allMissing = none := by simp [step1HardnessGpg, allMissing]
  exact ⟨h1, (c4_null_propagation allMissing).1 h1⟩

/-- Claim C5, counterexample: with serviceLoadingRate 0, peak flow 50 positive
but the reserve also at 100, step 10 carries the reserve-block message, not
the service-loading message, so the claim as stated (over every such record)
fails. -/
theorem c5_counterexample :
    step10Message scenarioReserve100SlrZero =
      some "Reserve Capacity must be below 100%. Step 5 and all later steps are blocked." ∧
    step10Message scenarioReserve100SlrZero ≠
      some "Service Loading Rate must be greater than 0. Steps 10 through 12 are blocked." := by
  have h : step10Message scenarioReserve100SlrZero =
      some "Reserve Capacity must be below 100%. Step 5 and all later steps are blocked." := by
    norm_num [step10Message, reserveBlockMessage, reserveTooHigh,
      scenarioReserve100SlrZero, scenario1]
  refine ⟨h, ?_⟩
  rw [h]
  simp

/-- Claim C5, amended: when the reserve gate is off, a parsed
serviceLoadingRate at most 0 together with a positive peak flow makes steps
10, 11 and 12 all null, each carrying the service-loading error message
(steps 11 and 12 inherit it unchanged from step 10). -/
theorem c5_service_loading_blocks_10_through_12 (f : Inputs)
    (hrb : reserveTooHigh f = false)
    (s : ℚ) (hs : f.serviceLoadingRate = some s) (hs0 : s ≤ 0)
    (p : ℚ) (hp : f.peakFlowGpm = some p) (hp0 : 0 < p) :
    step10BedAreaFt2 f = none ∧
    step10Message f =
      some "Service Loading Rate must be greater than 0. Steps 10 through 12 are blocked." ∧
    step11DiameterFt f = none ∧ step11DiameterIn f = none ∧
    step11Message f =
      some "Service Loading Rate must be greater than 0. Steps 10 through 12 are blocked." ∧
    step12BackwashFlowGpm f = none ∧
    step12Message f =
      some "Service Loading Rate must be greater than 0. Steps 10 through 12 are blocked." := by
  have hnot : ¬ (0 : ℚ) < s := not_lt.mpr hs0
  have h10 : step10BedAreaFt2 f = none := by
    simp [step10BedAreaFt2, hrb, hs, hp, hnot]
  have h10m : step10Message f =
      some "Service Loading Rate must be greater than 0. Steps 10 through 12 are blocked." := by
    simp [step10Message, hrb, hs, hp, isPositive, hnot, hp0]
  refine ⟨h10, h10m, ?_, ?_, ?_, ?_, ?_⟩
  · simp [step11DiameterFt, hrb, h10]
  · simp [step11DiameterIn, step11DiameterFt, hrb, h10]
  · simp [step11Message, hrb, h10, h10m]
  · cases hb : f.backwashRate <;> simp [step12BackwashFlowGpm, hrb, h10, hb]
  · simp [step12Message, hrb, h10, h10m]

/-- Claim C5, witness: the amended theorem applied at Scenario 1 with the
service loading rate set to 0. -/
theorem c5_witness :
    reserveTooHigh scenarioSlrZero = false ∧
    step10Message scenarioSlrZero =
      some "Service Loading Rate must be greater than 0. Steps 10 through 12 are blocked." := by
  have hrb : reserveTooHigh scenarioSlrZero = false := by
    norm_num [reserveTooHigh, scenarioSlrZero, scenario1]
  exact ⟨hrb, (c5_service_loading_blocks_10_through_12 scenarioSlrZero hrb 0 rfl
    (by norm_num) 50 rfl (by norm_num)).2.1⟩

/-- Claim C6: with the reserve gate off, override off gives the fixed table
value for the chosen salt dose (20000, 22500, 25000, 27500, 30000 for doses
6, 8, 10, 12, 15), while override on gives the entered value when positive
and otherwise a null value with the blocking message. -/
theorem c6_step6_capacity_table_and_override (f : Inputs)
    (hrb : reserveTooHigh f = false) :
    (f.overrideCapacity = false →
      step6CapacityPerFt3 f = some (CAPACITY_BY_SALT_DOSE f.saltDose)) ∧
    CAPACITY_BY_SALT_DOSE SaltDose.d6 = 20000 ∧
    CAPACITY_BY_SALT_DOSE SaltDose.d8 = 22500 ∧
    CAPACITY_BY_SALT_DOSE SaltDose.d10 = 25000 ∧
    CAPACITY_BY_SALT_DOSE SaltDose.d12 = 27500 ∧
    CAPACITY_BY_SALT_DOSE SaltDose.d15 = 30000 ∧
    (f.overrideCapacity = true →
      (∀ v : ℚ, f.overrideCapacityValue = some v → 0 < v →
        step6CapacityPerFt3 f = some v) ∧
      (isPositive f.overrideCapacityValue = false →
        step6CapacityPerFt3 f = none ∧
        step6Message f = some "Override capacity per cubic foot must be greater than 0.")) := by
  refine ⟨?_, rfl, rfl, rfl, rfl, rfl, ?_⟩
  · intro ho
    simp [step6CapacityPerFt3, hrb, ho]
  · intro ho
    constructor
    · intro v hv hvpos
      simp [step6CapacityPerFt3, hrb, ho, hv, hvpos]
    · intro hnp
      constructor
      · rcases hv : f.overrideCapacityValue with _ | w
        · simp [step6CapacityPerFt3, hrb, ho, hv]
        · have : ¬ (0 : ℚ) < w := by
            have := hnp
            rw [hv] at this
            simpa [isPositive] using this
          simp [step6CapacityPerFt3, hrb, ho, hv, this]
      · simp [step6Message, hrb, ho, hnp]

/-- Claim C6, witness: applied at Scenario 1 (override off, salt dose 8),
giving step 6 equal to the table value 22,500. -/
theorem c6_witness :
    reserveTooHigh scenario1 = false ∧ step6CapacityPerFt3 scenario1 = some 22500 := by
  have hrb : reserveTooHigh scenario1 = false := by
    norm_num [reserveTooHigh, scenario1]
  have h := (c6_step6_capacity_table_and_override scenario1 hrb).1 rfl
  exact ⟨hrb, by rw [h]; rfl⟩

/-- Inversion for step 9: a non-null brine value comes from a non-null step 8
and a positive dissolution factor. -/
theorem step9_some_elim {f : Inputs} {w : ℚ} (h : step9BrineWaterGallons f = some w) :
    ∃ t d : ℚ, step8SaltLbsPerRegen f = some t ∧ f.saltDissolutionFactor = some d ∧
      0 < d ∧ w = t / d := by
  unfold step9BrineWaterGallons at h
  rcases hrb : reserveTooHigh f with _ | _ <;> rw [hrb] at h
  · rcases h8 : step8SaltLbsPerRegen f with _ | t <;>
      rcases hd : f.saltDissolutionFactor with _ | d <;>
        simp [h8, hd] at h
    rcases h with ⟨hdpos, hw⟩
    exact ⟨t, d, rfl, rfl, hdpos, hw.symm⟩
  · simp at h

/-- Claim C7: for two records identical except for the reserve percent, with
step 4 available and `0 ≤ r1 < r2 < 100`, the larger reserve gives a strictly
larger step 5, and strictly larger step 7, step 8 and step 9 whenever those
are non-null. -/
theorem c7_reserve_monotonicity (f1 : Inputs) (r1 r2 : ℚ)
    (hr1 : f1.reservePercent = some r1)
    (h0 : 0 ≤ r1) (h12 : r1 < r2) (h100 : r2 < 100)
    (s4 : ℚ) (h4 : step4RequiredGrainsPerRun f1 = some s4) :
    ∃ v1 v2 : ℚ,
      step5DesignGrainsPerRun f1 = some v1 ∧
      step5DesignGrainsPerRun { f1 with reservePercent := some r2 } = some v2 ∧
      v1 < v2 ∧
      (∀ w1 w2 : ℚ, step7ResinFt3 f1 = some w1 →
        step7ResinFt3 { f1 with reservePercent := some r2 } = some w2 → w1 < w2) ∧
      (∀ w1 w2 : ℚ, step8SaltLbsPerRegen f1 = some w1 →
        step8SaltLbsPerRegen { f1 with reservePercent := some r2 } = some w2 → w1 < w2) ∧
      (∀ w1 w2 : ℚ, step9BrineWaterGallons f1 = some w1 →
        step9BrineWaterGallons { f1 with reservePercent := some r2 } = some w2 → w1 < w2) := by
  have hs4pos : 0 < s4 := step4_pos h4
  have hrb1 : reserveTooHigh f1 = false := by
    simp only [reserveTooHigh, hr1, decide_eq_false_iff_not, not_le]
    linarith
  have hrb2 : reserveTooHigh { f1 with reservePercent := some r2 } = false := by
    simp only [reserveTooHigh, decide_eq_false_iff_not, not_le]
    linarith
  have h4b : step4RequiredGrainsPerRun { f1 with reservePercent := some r2 } = some s4 := h4
  have hn1 : ¬ r1 < 0 := not_lt.mpr h0
  have hn2 : ¬ r2 < 0 := not_lt.mpr (by linarith)
  have h5v1 : step5DesignGrainsPerRun f1 = some (s4 / (1 - r1 / 100)) := by
    simp [step5DesignGrainsPerRun, hrb1, h4, hr1, hn1]
  have h5v2 : step5DesignGrainsPerRun { f1 with reservePercent := some r2 } =
      some (s4 / (1 - r2 / 100)) := by
    simp [step5DesignGrainsPerRun, hrb2, h4b, hn2]
  have hd2pos : 0 < 1 - r2 / 100 := reserve_divisor_pos h100
  have hd1pos : 0 < 1 - r1 / 100 := reserve_divisor_pos (by linarith)
  have hdlt : 1 - r2 / 100 < 1 - r1 / 100 := by
    have : r1 / 100 < r2 / 100 := by
      rw [div_lt_div_iff_of_pos_right (by norm_num : (0:ℚ) < 100)]
      exact h12
    linarith
  have hv12 : s4 / (1 - r1 / 100) < s4 / (1 - r2 / 100) :=
    div_lt_div_of_pos_left hs4pos hd2pos hdlt
  have h6eq : step6CapacityPerFt3 { f1 with reservePercent := some r2 } =
      step6CapacityPerFt3 f1 := by
    simp [step6CapacityPerFt3, hrb1, hrb2]
  have mono7 : ∀ w1 w2 : ℚ, step7ResinFt3 f1 = some w1 →
      step7ResinFt3 { f1 with reservePercent := some r2 } = some w2 → w1 < w2 := by
    intro w1 w2 hw1 hw2
    rcases h6 : step6CapacityPerFt3 f1 with _ | s6
    · simp [step7ResinFt3, hrb1, h5v1, h6] at hw1
    · have h6b : step6CapacityPerFt3 { f1 with reservePercent := some r2 } = some s6 :=
        h6eq.trans h6
      have hs6pos : 0 < s6 := step6_pos h6
      simp [step7ResinFt3, hrb1, h5v1, h6] at hw1
      simp [step7ResinFt3, hrb2, h5v2, h6b] at hw2
      subst hw1
      subst hw2
      exact div_lt_div_of_pos_right hv12 hs6pos
  have mono8 : ∀ w1 w2 : ℚ, step8SaltLbsPerRegen f1 = some w1 →
      step8SaltLbsPerRegen { f1 with reservePercent := some r2 } = some w2 → w1 < w2 := by
    intro w1 w2 hw1 hw2
    rcases h7a : step7ResinFt3 f1 with _ | u1
    · simp [step8SaltLbsPerRegen, hrb1, h7a] at hw1
    rcases h7b : step7ResinFt3 { f1 with reservePercent := some r2 } with _ | u2
    · simp [step8SaltLbsPerRegen, hrb2, h7b] at hw2
    simp [step8SaltLbsPerRegen, hrb1, h7a] at hw1
    simp [step8SaltLbsPerRegen, hrb2, h7b] at hw2
    subst hw1
    subst hw2
    exact mul_lt_mul_of_pos_right (mono7 u1 u2 h7a h7b) (saltDose_pos f1.saltDose)
  have mono9 : ∀ w1 w2 : ℚ, step9BrineWaterGallons f1 = some w1 →
      step9BrineWaterGallons { f1 with reservePercent := some r2 } = some w2 → w1 < w2 := by
    intro w1 w2 hw1 hw2
    obtain ⟨t1, d1, h8a, hd1, hd1p, he1⟩ := step9_some_elim hw1
    obtain ⟨t2, d2, h8b, hd2, hd2p, he2⟩ := step9_some_elim hw2
    have hd2' : f1.saltDissolutionFactor = some d2 := hd2
    have hdd : d1 = d2 := by
      have := hd1.symm.trans hd2'
      exact Option.some.inj this
    subst hdd
    rw [he1, he2]
    exact div_lt_div_of_pos_right (mono8 t1 t2 h8a h8b) hd1p
  exact ⟨s4 / (1 - r1 / 100), s4 / (1 - r2 / 100), h5v1, h5v2, hv12,
    mono7, mono8, mono9⟩

/-- Claim C7, witness: the theorem applied at Scenario 1 with the reserve
raised from 15 to 20. -/
theorem c7_witness :
    ∃ v1 v2 : ℚ,
      step5DesignGrainsPerRun scenario1 = some v1 ∧
      step5DesignGrainsPerRun { scenario1 with reservePercent := some 20 } = some v2 ∧
      v1 < v2 ∧
      (∀ w1 w2 : ℚ, step7ResinFt3 scenario1 = some w1 →
        step7ResinFt3 { scenario1 with reservePercent := some 20 } = some w2 → w1 < w2) ∧
      (∀ w1 w2 : ℚ, step8SaltLbsPerRegen scenario1 = some w1 →
        step8SaltLbsPerRegen { scenario1 with reservePercent := some 20 } = some w2 → w1 < w2) ∧
      (∀ w1 w2 : ℚ, step9BrineWaterGallons scenario1 = some w1 →
        step9BrineWaterGallons { scenario1 with reservePercent := some 20 } = some w2 → w1 < w2) :=
  c7_reserve_monotonicity scenario1 15 20 rfl (by norm_num) (by norm_num) (by norm_num)
    (20000000 / 57)
    (by norm_num [step4RequiredGrainsPerRun, step3GrainsPerDay, step2DesignHardnessGpg,
      step1HardnessGpg, scenario1])

/-- Claim C8: the calculator is total in the soft-failure sense — every
division the pipeline evaluates has a strictly positive divisor on the branch
where it runs (step 5's `1 - r / 100` is positive because `r ≥ 100` is
blocked and negative reserve is rejected; step 7 divides by a step 6 value
that is always positive; steps 9 and 10 divide only behind positivity
guards) and step 11's square-root argument is nonnegative. -/
theorem c8_division_and_sqrt_guards (f : Inputs) :
    (∀ r : ℚ, reserveTooHigh f = false → f.reservePercent = some r → ¬ r < 0 →
      0 < 1 - r / 100) ∧
    (∀ c : ℚ, step6CapacityPerFt3 f = some c → 0 < c) ∧
    (step9BrineWaterGallons f ≠ none →
      ∃ d : ℚ, f.saltDissolutionFactor = some d ∧ 0 < d) ∧
    (step10BedAreaFt2 f ≠ none →
      ∃ s : ℚ, f.serviceLoadingRate = some s ∧ 0 < s) ∧
    (∀ a : ℚ, step10BedAreaFt2 f = some a → 0 ≤ (a : ℝ) / Real.pi) := by
  refine ⟨?_, ?_, ?_, ?_, ?_⟩
  · intro r hrb hr hneg
    have h100 : ¬ (100 : ℚ) ≤ r := by
      have := hrb
      unfold reserveTooHigh at this
      rw [hr] at this
      simpa using this
    exact reserve_divisor_pos (lt_of_not_le h100)
  · intro c hc
    exact step6_pos hc
  · intro h9
    rcases h : step9BrineWaterGallons f with _ | w
    · exact absurd h h9
    · obtain ⟨t, d, _, hd, hdp, _⟩ := step9_some_elim h
      exact ⟨d, hd, hdp⟩
  · intro h10
    rcases h : step10BedAreaFt2 f with _ | a
    · exact absurd h h10
    · unfold step10BedAreaFt2 at h
      rcases hrb : reserveTooHigh f with _ | _ <;> rw [hrb] at h
      · rcases hp : f.peakFlowGpm with _ | p <;>
          rcases hs : f.serviceLoadingRate with _ | s <;>
            simp [hp, hs] at h
        exact ⟨s, rfl, h.1.2⟩
      · simp at h
  · intro a ha
    have : (0 : ℝ) < (a : ℝ) := by exact_mod_cast step10_pos ha
    exact div_nonneg this.le Real.pi_pos.le

/-- Claim C8, witness: the positivity of step 7's divisor, applied at
Scenario 1 where step 6 is the table value 22,500. -/
theorem c8_witness :
    step6CapacityPerFt3 scenario1 = some 22500 ∧ (0 : ℚ) < 22500 := by
  have h6 : step6CapacityPerFt3 scenario1 = some 22500 := by
    norm_num [step6CapacityPerFt3, reserveTooHigh, scenario1, CAPACITY_BY_SALT_DOSE]
  exact ⟨h6, (c8_division_and_sqrt_guards scenario1).2.1 22500 h6⟩

/-- Claim C9: for every step that carries a message (steps 5 through 12), the
value and the message are mutually exclusive — a non-null value forces a null
message. -/
theorem c9_value_message_exclusive (f : Inputs) :
    (∀ v : ℚ, step5DesignGrainsPerRun f = some v → step5Message f = none) ∧
    (∀ v : ℚ, step6CapacityPerFt3 f = some v → step6Message f = none) ∧
    (∀ v : ℚ, step7ResinFt3 f = some v → step7Message f = none) ∧
    (∀ v : ℚ, step8SaltLbsPerRegen f = some v → step8Message f = none) ∧
    (∀ v : ℚ, step9BrineWaterGallons f = some v → step9Message f = none) ∧
    (∀ v : ℚ, step10BedAreaFt2 f = some v → step10Message f = none) ∧
    (∀ v : ℝ, step11DiameterFt f = some v → step11Message f = none) ∧
    (∀ v : ℝ, step11DiameterIn f = some v → step11Message f = none) ∧
    (∀ v : ℚ, step12BackwashFlowGpm f = some v → step12Message f = none) := by
  have h11ft : ∀ v : ℝ, step11DiameterFt f = some v → step11Message f = none := by
    intro v hv
    unfold step11DiameterFt at hv
    rcases hrb : reserveTooHigh f with _ | _ <;> rw [hrb] at hv
    · rcases h10 : step10BedAreaFt2 f with _ | a <;> simp [h10] at hv
      simp [step11Message, hrb, h10]
    · simp at hv
  refine ⟨?_, ?_, ?_, ?_, ?_, ?_, h11ft, ?_, ?_⟩
  · intro v hv
    unfold step5DesignGrainsPerRun at hv
    rcases hrb : reserveTooHigh f with _ | _ <;> rw [hrb] at hv
    · rcases h4 : step4RequiredGrainsPerRun f with _ | s4 <;>
        rcases hr : f.reservePercent with _ | r <;>
          simp [h4, hr] at hv
      exact by simp [step5Message, hrb, h4, hr, hv.1]
    · simp at hv
  · intro v hv
    unfold step6CapacityPerFt3 at hv
    rcases hrb : reserveTooHigh f with _ | _ <;> rw [hrb] at hv
    · rcases ho : f.overrideCapacity with _ | _ <;> rw [ho] at hv
      · simp [step6Message, hrb, ho]
      · rcases hov : f.overrideCapacityValue with _ | w <;> simp [hov] at hv
        simp [step6Message, hrb, ho, isPositive, hov, hv.1]
    · simp at hv
  · intro v hv
    unfold step7ResinFt3 at hv
    rcases hrb : reserveTooHigh f with _ | _ <;> rw [hrb] at hv
    · rcases h5 : step5DesignGrainsPerRun f with _ | s5 <;>
        rcases h6 : step6CapacityPerFt3 f with _ | s6 <;>
          simp [h5, h6] at hv
      simp [step7Message, hrb, h5, h6]
    · simp at hv
  · intro v hv
    unfold step8SaltLbsPerRegen at hv
    rcases hrb : reserveTooHigh f with _ | _ <;> rw [hrb] at hv
    · rcases h7 : step7ResinFt3 f with _ | s7 <;> simp [h7] at hv
      simp [step8Message, hrb, h7]
    · simp at hv
  · intro v hv
    have hrb : reserveTooHigh f = false := by
      rcases hrb : reserveTooHigh f with _ | _
      · rfl
      · unfold step9BrineWaterGallons at hv
        rw [hrb] at hv
        simp at hv
    obtain ⟨t, d, h8, hd, hdp, _⟩ := step9_some_elim hv
    simp [step9Message, hrb, h8, isPositive, hd, hdp]
  · intro v hv
    unfold step10BedAreaFt2 at hv
    rcases hrb : reserveTooHigh f with _ | _ <;> rw [hrb] at hv
    · rcases hp : f.peakFlowGpm with _ | p <;>
        rcases hs : f.serviceLoadingRate with _ | s <;>
          simp [hp, hs] at hv
      simp [step10Message, hrb, isPositive, hp, hs, hv.1.1, hv.1.2]
    · simp at hv
  · intro v hv
    unfold step11DiameterIn at hv
    rcases hrb : reserveTooHigh f with _ | _ <;> rw [hrb] at hv
    · rcases hft : step11DiameterFt f with _ | d0 <;> simp [hft] at hv
      exact h11ft d0 hft
    · simp at hv
  · intro v hv
    unfold step12BackwashFlowGpm at hv
    rcases hrb : reserveTooHigh f with _ | _ <;> rw [hrb] at hv
    · rcases h10 : step10BedAreaFt2 f with _ | a <;>
        rcases hb : f.backwashRate with _ | b <;>
          simp [h10, hb] at hv
      simp [step12Message, hrb, h10, isPositive, hb, hv.1]
    · simp at hv

/-- Claim C9, witness: applied at Scenario 1, where step 5 is non-null and
therefore step 5's message is null. -/
theorem c9_witness :
    step5DesignGrainsPerRun scenario1 = some (400000000 / 969) ∧
    step5Message scenario1 = none := by
  have h5 : step5DesignGrainsPerRun scenario1 = some (400000000 / 969) := by
    norm_num [step5DesignGrainsPerRun, reserveTooHigh, step4RequiredGrainsPerRun,
      step3GrainsPerDay, step2DesignHardnessGpg, step1HardnessGpg, scenario1]
  exact ⟨h5, (c9_value_message_exclusive scenario1).1 (400000000 / 969) h5⟩

/-- Claim C10: every non-null step value in the result record is strictly
positive, including both diameter values of step 11. -/
theorem c10_nonnull_values_positive (f : Inputs) :
    (∀ v : ℚ, step1HardnessGpg f = some v → 0 < v) ∧
    (∀ v : ℚ, step2DesignHardnessGpg f = some v → 0 < v) ∧
    (∀ v : ℚ, step3GrainsPerDay f = some v → 0 < v) ∧
    (∀ v : ℚ, step4RequiredGrainsPerRun f = some v → 0 < v) ∧
    (∀ v : ℚ, step5DesignGrainsPerRun f = some v → 0 < v) ∧
    (∀ v : ℚ, step6CapacityPerFt3 f = some v → 0 < v) ∧
    (∀ v : ℚ, step7ResinFt3 f = some v → 0 < v) ∧
    (∀ v : ℚ, step8SaltLbsPerRegen f = some v → 0 < v) ∧
    (∀ v : ℚ, step9BrineWaterGallons f = some v → 0 < v) ∧
    (∀ v : ℚ, step10BedAreaFt2 f = some v → 0 < v) ∧
    (∀ v : ℝ, step11DiameterFt f = some v → 0 < v) ∧
    (∀ v : ℝ, step11DiameterIn f = some v → 0 < v) ∧
    (∀ v : ℚ, step12BackwashFlowGpm f = some v → 0 < v) :=
  ⟨fun _ h => step1_pos h, fun _ h => step2_pos h, fun _ h => step3_pos h,
    fun _ h => step4_pos h, fun _ h => step5_pos h, fun _ h => step6_pos h,
    fun _ h => step7_pos h, fun _ h => step8_pos h, fun _ h => step9_pos h,
    fun _ h => step10_pos h, fun _ h => step11Ft_pos h, fun _ h => step11In_pos h,
    fun _ h => step12_pos h⟩

/-- Claim C10, witness: applied at Scenario 1, where step 1 is `1000 / 57`
and therefore positive. -/
theorem c10_witness :
    step1HardnessGpg scenario1 = some (1000 / 57) ∧ (0 : ℚ) < 1000 / 57 := by
  have h1 : step1HardnessGpg scenario1 = some (1000 / 57) := by
    norm_num [step1HardnessGpg, scenario1]
  exact ⟨h1, (c10_nonnull_values_positive scenario1).1 (1000 / 57) h1⟩

end SoftenerSizer
